import Mathlib

/-!
Shallow embedding of the Tauri-Tidal frontend core: the zustand stores
(player, queue, auth, library), the device-code login polling loop, the
debounced persistence effects, the animated progress hook and the
keyboard-shortcut volume handlers, together with theorems about them.
Times are in milliseconds (`Nat` for epoch timestamps), scalar quantities
(volume, positions, durations) are rationals.
-/

/-- PlaybackState union type from types/player. -/
inductive PlaybackState where
  | playing
  | paused
  | stopped
  | buffering
deriving DecidableEq, Repr

/-- RepeatMode union type from types/player. -/
inductive RepeatMode where
  | off
  | all
  | one
deriving DecidableEq, Repr

/-- Track interface from src/types/track.ts. Optional fields are `Option`s. -/
structure Track where
  id : String
  title : String
  duration : ℚ
  trackNumber : Option ℚ := none
  volumeNumber : Option ℚ := none
  isrc : Option String := none
  artistName : String
  artistId : Option String := none
  albumName : String
  albumId : Option String := none
  artworkUrl : Option String := none
  mediaTags : List String := []
deriving DecidableEq, Repr

/-- The player store state (src/stores/playerStore.ts). -/
structure PlayerStoreState where
  state : PlaybackState
  currentTrack : Option Track
  position : ℚ
  duration : ℚ
  volume : ℚ
  muted : Bool
  previousVolume : ℚ
  codec : Option String
  quality : Option String
  expanded : Bool
deriving DecidableEq, Repr

namespace PlayerStoreState

/-- Initial player store state (playerStore.ts creator defaults). -/
def initial : PlayerStoreState :=
  { state := .stopped, currentTrack := none, position := 0, duration := 0,
    volume := 1, muted := false, previousVolume := 1,
    codec := none, quality := none, expanded := false }

/-- `setState` action of the player store. -/
def setState (st : PlaybackState) (s : PlayerStoreState) : PlayerStoreState :=
  { s with state := st }

/-- `setCurrentTrack` action of the player store. -/
def setCurrentTrack (track : Option Track) (s : PlayerStoreState) : PlayerStoreState :=
  { s with currentTrack := track }

/-- `setVolume` action: sets the volume and clears `muted`. -/
def setVolume (volume : ℚ) (s : PlayerStoreState) : PlayerStoreState :=
  { s with volume := volume, muted := false }

/-- `toggleMute` action: when muted, restore `previousVolume`; otherwise
record the current volume in `previousVolume` and set the volume to 0. -/
def toggleMute (s : PlayerStoreState) : PlayerStoreState :=
  if s.muted then
    { s with muted := false, volume := s.previousVolume }
  else
    { s with muted := true, previousVolume := s.volume, volume := 0 }

/-- `setProgress` action of the player store. -/
def setProgress (position duration : ℚ) (s : PlayerStoreState) : PlayerStoreState :=
  { s with position := position, duration := duration }

end PlayerStoreState

/-- `toggleMute` of usePlayback (src/hooks/usePlayback.ts): reads `muted` and
`previousVolume` from the store, runs the store's `toggleMute`, and sends one
`set_volume` command whose argument is the previous volume when unmuting and
0 when muting. Returns the updated store and the volume value submitted. -/
def usePlaybackToggleMute (s : PlayerStoreState) : PlayerStoreState × ℚ :=
  (s.toggleMute, if s.muted then s.previousVolume else 0)

/-- The volume written by the debounced prefs saver in AppLayout.tsx
(`const realVolume = muted ? previousVolume : volume`). -/
def savedPrefsVolume (s : PlayerStoreState) : ℚ :=
  if s.muted then s.previousVolume else s.volume

/-- Argument passed to `setVolume` by the VOLUME_UP keyboard shortcut
(useKeyboardShortcuts.ts): `Math.min(1, volume + 0.05)`. -/
def volumeUpArg (volume : ℚ) : ℚ := min 1 (volume + 5/100)

/-- Argument passed to `setVolume` by the VOLUME_DOWN keyboard shortcut
(useKeyboardShortcuts.ts): `Math.max(0, volume - 0.05)`. -/
def volumeDownArg (volume : ℚ) : ℚ := max 0 (volume - 5/100)

/-- Claim C3: starting from an unmuted store with volume `v`, `toggleMute`
sets `muted := true`, output volume 0 and `previousVolume := v`; while muted
the volume persisted to player prefs is still `v`; a second `toggleMute`
restores `muted := false` and volume exactly `v`; and the usePlayback wrapper
submits 0 to `set_volume` when muting and `v` when unmuting. -/
theorem toggleMute_roundtrip (s : PlayerStoreState) (h : s.muted = false) :
    (s.toggleMute.muted = true ∧ s.toggleMute.volume = 0 ∧
      s.toggleMute.previousVolume = s.volume) ∧
    savedPrefsVolume s.toggleMute = s.volume ∧
    (s.toggleMute.toggleMute.muted = false ∧
      s.toggleMute.toggleMute.volume = s.volume) ∧
    (usePlaybackToggleMute s = (s.toggleMute, 0) ∧
      (usePlaybackToggleMute s.toggleMute).2 = s.volume) := by
  simp [PlayerStoreState.toggleMute, savedPrefsVolume, usePlaybackToggleMute, h]

/-- Concrete instantiation of `toggleMute_roundtrip` at the initial store. -/
theorem toggleMute_roundtrip_witness :
    (PlayerStoreState.initial.toggleMute.muted = true ∧
      PlayerStoreState.initial.toggleMute.volume = 0 ∧
      PlayerStoreState.initial.toggleMute.previousVolume =
        PlayerStoreState.initial.volume) ∧
    savedPrefsVolume PlayerStoreState.initial.toggleMute =
      PlayerStoreState.initial.volume ∧
    (PlayerStoreState.initial.toggleMute.toggleMute.muted = false ∧
      PlayerStoreState.initial.toggleMute.toggleMute.volume =
        PlayerStoreState.initial.volume) ∧
    (usePlaybackToggleMute PlayerStoreState.initial =
        (PlayerStoreState.initial.toggleMute, 0) ∧
      (usePlaybackToggleMute PlayerStoreState.initial.toggleMute).2 =
        PlayerStoreState.initial.volume) :=
  toggleMute_roundtrip PlayerStoreState.initial rfl

/-- Claim C7: for a current volume in [0,1], the VOLUME_UP handler submits
`min 1 (v + 0.05)` and the VOLUME_DOWN handler `max 0 (v - 0.05)`, and both
submitted values lie within the 0..1 range the `set_volume` interface
declares. -/
theorem keyboard_volume_in_range (v : ℚ) (h0 : 0 ≤ v) (h1 : v ≤ 1) :
    volumeUpArg v = min 1 (v + 5/100) ∧
    volumeDownArg v = max 0 (v - 5/100) ∧
    0 ≤ volumeUpArg v ∧ volumeUpArg v ≤ 1 ∧
    0 ≤ volumeDownArg v ∧ volumeDownArg v ≤ 1 := by
  refine ⟨rfl, rfl, ?_, ?_, ?_, ?_⟩
  · exact le_min (by norm_num) (by linarith)
  · exact min_le_left _ _
  · exact le_max_left _ _
  · exact max_le (by norm_num) (by linarith)

/-- Concrete instantiation of `keyboard_volume_in_range` at volume 1/2. -/
theorem keyboard_volume_in_range_witness :
    volumeUpArg (1/2) = min 1 (1/2 + 5/100) ∧
    volumeDownArg (1/2) = max 0 (1/2 - 5/100) ∧
    0 ≤ volumeUpArg (1/2) ∧ volumeUpArg (1/2) ≤ 1 ∧
    0 ≤ volumeDownArg (1/2) ∧ volumeDownArg (1/2) ≤ 1 :=
  keyboard_volume_in_range (1/2) (by norm_num) (by norm_num)

/-- Playlist interface from src/types/track.ts. -/
structure Playlist where
  id : String
  name : String
  description : Option String := none
  duration : Option ℚ := none
  numberOfItems : Option ℚ := none
  playlistType : Option String := none
  artworkUrl : Option String := none
  creatorId : Option String := none
deriving DecidableEq, Repr

/-- The library store state (src/stores/libraryStore.ts); the JS `Set` of
favorite track ids is modelled as a `Finset String`. -/
structure LibraryStoreState where
  playlists : List Playlist
  favorites : List Track
  favoriteTrackIds : Finset String
  favoritesNextCursor : Option String
  favoritesHasMore : Bool
  loading : Bool
  loadingMore : Bool

namespace LibraryStoreState

/-- `setFavorites`: replaces the favorites list and rebuilds the id set from
`favorites.map((t) => t.id)`. -/
def setFavorites (favorites : List Track) (nextCursor : Option String)
    (hasMore : Bool) (s : LibraryStoreState) : LibraryStoreState :=
  { s with favorites := favorites,
           favoriteTrackIds := (favorites.map Track.id).toFinset,
           favoritesNextCursor := nextCursor,
           favoritesHasMore := hasMore }

/-- `appendFavorites`: appends a page of tracks and rebuilds the id set from
the combined list. -/
def appendFavorites (tracks : List Track) (nextCursor : Option String)
    (hasMore : Bool) (s : LibraryStoreState) : LibraryStoreState :=
  { s with favorites := s.favorites ++ tracks,
           favoriteTrackIds := ((s.favorites ++ tracks).map Track.id).toFinset,
           favoritesNextCursor := nextCursor,
           favoritesHasMore := hasMore }

/-- `isFavorite`: membership test on the id set. -/
def isFavorite (trackId : String) (s : LibraryStoreState) : Bool :=
  trackId ∈ s.favoriteTrackIds

end LibraryStoreState

/-- Claim C10: after `setFavorites` or `appendFavorites` the
`favoriteTrackIds` set is exactly the set of ids of the tracks in the
favorites list, so `isFavorite id` returns true iff some track of the
favorites list has that id. -/
theorem favorites_ids_in_sync (s : LibraryStoreState) (favs tracks : List Track)
    (nextCursor : Option String) (hasMore : Bool) (trackId : String) :
    ((s.setFavorites favs nextCursor hasMore).favoriteTrackIds =
        ((s.setFavorites favs nextCursor hasMore).favorites.map Track.id).toFinset ∧
      ((s.setFavorites favs nextCursor hasMore).isFavorite trackId = true ↔
        ∃ t ∈ (s.setFavorites favs nextCursor hasMore).favorites, t.id = trackId)) ∧
    ((s.appendFavorites tracks nextCursor hasMore).favoriteTrackIds =
        ((s.appendFavorites tracks nextCursor hasMore).favorites.map Track.id).toFinset ∧
      ((s.appendFavorites tracks nextCursor hasMore).isFavorite trackId = true ↔
        ∃ t ∈ (s.appendFavorites tracks nextCursor hasMore).favorites, t.id = trackId)) := by
  refine ⟨⟨rfl, ?_⟩, ⟨rfl, ?_⟩⟩ <;>
    simp only [LibraryStoreState.isFavorite, LibraryStoreState.setFavorites,
      LibraryStoreState.appendFavorites, decide_eq_true_eq, List.mem_toFinset,
      List.mem_map]

/-- The queue store state (stores/queueStore.ts). -/
structure QueueStoreState where
  tracks : List Track
  currentIndex : Option Nat
  repeatMode : RepeatMode
  shuffled : Bool
deriving DecidableEq, Repr

namespace QueueStoreState

/-- Initial queue store state. -/
def initial : QueueStoreState :=
  { tracks := [], currentIndex := none, repeatMode := .off, shuffled := false }

/-- `setQueue` action. -/
def setQueue (tracks : List Track) (currentIndex : Option Nat)
    (s : QueueStoreState) : QueueStoreState :=
  { s with tracks := tracks, currentIndex := currentIndex }

/-- `setCurrentIndex` action. -/
def setCurrentIndex (currentIndex : Option Nat) (s : QueueStoreState) : QueueStoreState :=
  { s with currentIndex := currentIndex }

/-- `setRepeatMode` action. -/
def setRepeatMode (repeatMode : RepeatMode) (s : QueueStoreState) : QueueStoreState :=
  { s with repeatMode := repeatMode }

/-- `setShuffled` action. -/
def setShuffled (shuffled : Bool) (s : QueueStoreState) : QueueStoreState :=
  { s with shuffled := shuffled }

end QueueStoreState

/-- The QueueState payload returned by the `load_saved_queue` /`get_queue`
commands (types/player.ts). -/
structure QueueSnapshot where
  tracks : List Track
  currentIndex : Option Nat
  repeatMode : RepeatMode
  shuffled : Bool
deriving DecidableEq, Repr

/-- Body of the `loadSavedQueue().then(...)` callback of the startup effect in
AppLayout.tsx: stores the snapshot into the queue store, and when
`currentIndex` is non-null and indexes an existing track, sets that track as
the player's current track. The third component lists the playback commands
invoked by the callback — it invokes none. -/
def restoreSavedQueue (queue : QueueSnapshot) (qs : QueueStoreState)
    (ps : PlayerStoreState) : QueueStoreState × PlayerStoreState × List String :=
  let qs1 := (qs.setQueue queue.tracks queue.currentIndex).setRepeatMode
    queue.repeatMode |>.setShuffled queue.shuffled
  let ps1 := match queue.currentIndex with
    | some i =>
      match queue.tracks.get? i with
      | some track => ps.setCurrentTrack (some track)
      | none => ps
    | none => ps
  (qs1, ps1, [])

/-- Claim C5: restoring the saved queue sets the queue contents, current
index, repeat mode and shuffle flag; when the restored index is valid the
indexed track becomes the player's current track; no play command is invoked
and the playback state is left unchanged (so it stays `stopped`). -/
theorem restoreSavedQueue_no_autoplay (queue : QueueSnapshot)
    (qs : QueueStoreState) (ps : PlayerStoreState) (i : Nat) (track : Track)
    (hi : queue.currentIndex = some i) (ht : queue.tracks.get? i = some track) :
    (restoreSavedQueue queue qs ps).1.tracks = queue.tracks ∧
    (restoreSavedQueue queue qs ps).1.currentIndex = queue.currentIndex ∧
    (restoreSavedQueue queue qs ps).1.repeatMode = queue.repeatMode ∧
    (restoreSavedQueue queue qs ps).1.shuffled = queue.shuffled ∧
    (restoreSavedQueue queue qs ps).2.1.currentTrack = some track ∧
    (restoreSavedQueue queue qs ps).2.1.state = ps.state ∧
    (restoreSavedQueue queue qs ps).2.2 = [] := by
  have ht' : queue.tracks[i]? = some track := by
    simpa [List.get?_eq_getElem?] using ht
  simp [restoreSavedQueue, QueueStoreState.setQueue, QueueStoreState.setRepeatMode,
    QueueStoreState.setShuffled, PlayerStoreState.setCurrentTrack, hi, ht']

/-- A sample track used by concrete witnesses. -/
def sampleTrack : Track :=
  { id := "t1", title := "Song", duration := 200,
    artistName := "Artist", albumName := "Album" }

/-- A second sample track used by concrete witnesses. -/
def sampleTrack2 : Track :=
  { id := "t2", title := "Song 2", duration := 180,
    artistName := "Artist", albumName := "Album" }

/-- A third sample track used by concrete witnesses. -/
def sampleTrack3 : Track :=
  { id := "t3", title := "Song 3", duration := 210,
    artistName := "Artist", albumName := "Album" }

/-- A sample saved-queue snapshot with a valid current index. -/
def sampleSnapshot : QueueSnapshot :=
  { tracks := [sampleTrack, sampleTrack2], currentIndex := some 1,
    repeatMode := .all, shuffled := false }

/-- Concrete instantiation of `restoreSavedQueue_no_autoplay`. -/
theorem restoreSavedQueue_no_autoplay_witness :
    (restoreSavedQueue sampleSnapshot .initial .initial).1.tracks = sampleSnapshot.tracks ∧
    (restoreSavedQueue sampleSnapshot .initial .initial).1.currentIndex = sampleSnapshot.currentIndex ∧
    (restoreSavedQueue sampleSnapshot .initial .initial).1.repeatMode = sampleSnapshot.repeatMode ∧
    (restoreSavedQueue sampleSnapshot .initial .initial).1.shuffled = sampleSnapshot.shuffled ∧
    (restoreSavedQueue sampleSnapshot .initial .initial).2.1.currentTrack = some sampleTrack2 ∧
    (restoreSavedQueue sampleSnapshot .initial .initial).2.1.state = PlayerStoreState.initial.state ∧
    (restoreSavedQueue sampleSnapshot .initial .initial).2.2 = [] :=
  restoreSavedQueue_no_autoplay sampleSnapshot .initial .initial 1 sampleTrack2 rfl rfl

/-- The auth store state (stores/authStore.ts). -/
structure AuthStoreState where
  authenticated : Bool
  userId : Option String
  displayName : Option String
  countryCode : String
  checking : Bool
  loginPending : Bool
  userCode : Option String
  verificationUri : Option String
  loginError : Option String
deriving DecidableEq, Repr

namespace AuthStoreState

/-- Initial auth store state. -/
def initial : AuthStoreState :=
  { authenticated := false, userId := none, displayName := none,
    countryCode := "US", checking := true, loginPending := false,
    userCode := none, verificationUri := none, loginError := none }

/-- `setAuth` action: records the auth status and clears all login-attempt
fields. -/
def setAuth (authenticated : Bool) (userId displayName : Option String)
    (countryCode : String) (_s : AuthStoreState) : AuthStoreState :=
  { authenticated := authenticated, userId := userId,
    displayName := displayName, countryCode := countryCode,
    checking := false, loginPending := false, userCode := none,
    verificationUri := none, loginError := none }

/-- `setChecking` action. -/
def setChecking (checking : Bool) (s : AuthStoreState) : AuthStoreState :=
  { s with checking := checking }

/-- `setLoginPending` action: sets the pending flag and the user-facing code
and URI, clearing any login error. -/
def setLoginPending (pending : Bool) (userCode verificationUri : Option String)
    (s : AuthStoreState) : AuthStoreState :=
  { s with loginPending := pending, userCode := userCode,
           verificationUri := verificationUri, loginError := none }

/-- `setLoginError` action: records the error and clears the pending login
fields. -/
def setLoginError (error : Option String) (s : AuthStoreState) : AuthStoreState :=
  { s with loginError := error, loginPending := false, userCode := none,
           verificationUri := none }

end AuthStoreState

/-- DeviceAuthResponse payload (types/api.ts) returned by the `login`
command. `interval` is kept as the raw number; `deviceAuth.interval || 5`
treats 0 as absent. -/
structure DeviceAuthResponse where
  deviceCode : String
  userCode : String
  verificationUri : String
  verificationUriComplete : Option String := none
  expiresIn : Nat
  interval : Nat
deriving DecidableEq, Repr

/-- JavaScript `a || b` on a number: 0 (falsy) falls through to the default. -/
def jsOrDefault (a dflt : Nat) : Nat := if a = 0 then dflt else a

/-- State of the useAuth hook (the unnamed auth hook source, second
variant): the auth store together with the mutable `pollingRef` and the
values captured by the active poll closure (`interval` in ms and the
computed `expiresAt` epoch). -/
structure LoginState where
  store : AuthStoreState
  pollingRef : Bool
  interval : Nat
  expiresAt : Nat
deriving DecidableEq, Repr

/-- Outcome of one `tauri.pollLogin()` call: a status payload or a thrown
error. -/
inductive PollResponse where
  | ok (authenticated : Bool) (userId displayName : Option String)
      (countryCode : String)
  | err (msg : String)
deriving DecidableEq, Repr

/-- One scheduled run of the `poll` closure at epoch `now`, given the
response the backend would return. Mirrors the source order: bail out when
`pollingRef` is false; expire when `now > expiresAt` (before any request);
otherwise poll and either finish on success, reschedule after `interval` on
pending, or record the thrown error. Returns the new state, whether
`tauri.pollLogin` was actually invoked, and the epoch of the next scheduled
poll, if any. -/
def pollStep (now : Nat) (resp : PollResponse) (s : LoginState) :
    LoginState × Bool × Option Nat :=
  if s.pollingRef = false then (s, false, none)
  else if s.expiresAt < now then
    ({ s with
        pollingRef := false,
        store := s.store.setLoginError (some "Login expired. Please try again.") },
      false, none)
  else
    match resp with
    | .ok true userId displayName countryCode =>
        ({ s with
            pollingRef := false,
            store := s.store.setAuth true userId displayName countryCode },
          true, none)
    | .ok false _ _ _ => (s, true, some (now + s.interval))
    | .err msg =>
        ({ s with
            pollingRef := false,
            store := s.store.setLoginError (some msg) },
          true, none)

/-- `cancelLogin` of the auth hook: clears `pollingRef` and the pending
flag. -/
def cancelLogin (s : LoginState) : LoginState :=
  { s with pollingRef := false,
           store := s.store.setLoginPending false none none }

/-- `startLogin` of the auth hook at epoch `now`: returns immediately when a
poll loop is active; otherwise issues the `login` command, and on success
stores the pending login, sets `pollingRef`, captures `interval` (seconds,
defaulted to 5 when falsy, converted to ms) and `expiresAt`, and schedules
the first poll one interval later; a thrown error is recorded in the store.
Returns the new state, whether the `login` command was issued, and the epoch
of the first scheduled poll, if any. -/
def startLogin (now : Nat) (resp : Except String DeviceAuthResponse)
    (s : LoginState) : LoginState × Bool × Option Nat :=
  if s.pollingRef then (s, false, none)
  else
    match resp with
    | .error msg =>
        ({ s with store := s.store.setLoginError (some msg) }, true, none)
    | .ok deviceAuth =>
        ({ store := s.store.setLoginPending true (some deviceAuth.userCode)
              (some deviceAuth.verificationUri),
           pollingRef := true,
           interval := jsOrDefault deviceAuth.interval 5 * 1000,
           expiresAt := now + deviceAuth.expiresIn * 1000 },
          true, some (now + jsOrDefault deviceAuth.interval 5 * 1000))

/-- A sequence of scheduled poll runs, each given as (epoch, backend
response); returns the final state and the number of runs that actually
invoked `tauri.pollLogin`. -/
def pollTrace : List (Nat × PollResponse) → LoginState → LoginState × Nat
  | [], s => (s, 0)
  | (t, r) :: rest, s =>
      let out := pollStep t r s
      let tail := pollTrace rest out.1
      (tail.1, (if out.2.1 then 1 else 0) + tail.2)

/-- Once `pollingRef` is false, scheduled poll runs do nothing: no poll
request is ever issued and the state is unchanged. -/
theorem pollTrace_stopped (steps : List (Nat × PollResponse)) (s : LoginState)
    (h : s.pollingRef = false) : pollTrace steps s = (s, 0) := by
  induction steps with
  | nil => rfl
  | cons step rest ih =>
      obtain ⟨t, r⟩ := step
      simp [pollTrace, pollStep, h, ih]

/-- Claim C1: for an active poll loop, a "pending" (not authenticated) poll
response at or before `expiresAt` leaves the whole login state unchanged
(still pending) and schedules the next poll exactly one server-given
interval later; a poll run strictly after `expiresAt` stops polling, records
the timeout error "Login expired. Please try again.", issues no poll
request and schedules nothing. -/
theorem pollStep_pending_or_expired (s : LoginState) (now : Nat)
    (userId displayName : Option String) (countryCode : String)
    (resp : PollResponse) (hpoll : s.pollingRef = true) :
    (now ≤ s.expiresAt →
      pollStep now (.ok false userId displayName countryCode) s =
        (s, true, some (now + s.interval))) ∧
    (s.expiresAt < now →
      (pollStep now resp s).1.store.loginError =
          some "Login expired. Please try again." ∧
        (pollStep now resp s).1.store.loginPending = false ∧
        (pollStep now resp s).1.pollingRef = false ∧
        (pollStep now resp s).2.1 = false ∧
        (pollStep now resp s).2.2 = none) := by
  constructor
  · intro hle
    simp [pollStep, hpoll, Nat.not_lt.mpr hle]
  · intro hgt
    simp [pollStep, hpoll, hgt, AuthStoreState.setLoginError]

/-- A sample auth store state representing an in-flight pending login. -/
def samplePendingStore : AuthStoreState :=
  { authenticated := false, userId := none, displayName := none,
    countryCode := "US", checking := false, loginPending := true,
    userCode := some "ABCD-EFGH", verificationUri := some "link.tidal.com",
    loginError := none }

/-- A sample login state with an active poll loop (interval 5 s, expiry at
epoch 300000). -/
def samplePollingState : LoginState :=
  { store := samplePendingStore, pollingRef := true,
    interval := 5000, expiresAt := 300000 }

/-- Concrete instantiation of `pollStep_pending_or_expired` at epoch 10000
for the pending branch and any later epoch for the expiry branch. -/
theorem pollStep_pending_or_expired_witness :
    (10000 ≤ samplePollingState.expiresAt →
      pollStep 10000 (.ok false none none "US") samplePollingState =
        (samplePollingState, true, some (10000 + samplePollingState.interval))) ∧
    (samplePollingState.expiresAt < 10000 →
      (pollStep 10000 (.ok false none none "US") samplePollingState).1.store.loginError =
          some "Login expired. Please try again." ∧
        (pollStep 10000 (.ok false none none "US") samplePollingState).1.store.loginPending = false ∧
        (pollStep 10000 (.ok false none none "US") samplePollingState).1.pollingRef = false ∧
        (pollStep 10000 (.ok false none none "US") samplePollingState).2.1 = false ∧
        (pollStep 10000 (.ok false none none "US") samplePollingState).2.2 = none) :=
  pollStep_pending_or_expired samplePollingState 10000 none none "US"
    (.ok false none none "US") rfl

/-- Claim C2: after `cancelLogin`, the pending flag is cleared, no login
error is set, and no subsequently scheduled poll run ever invokes the poll
command (the whole trace is a no-op). -/
theorem cancelLogin_stops_polling (s : LoginState)
    (steps : List (Nat × PollResponse)) :
    pollTrace steps (cancelLogin s) = (cancelLogin s, 0) ∧
    (cancelLogin s).pollingRef = false ∧
    (cancelLogin s).store.loginPending = false ∧
    (cancelLogin s).store.loginError = none := by
  refine ⟨pollTrace_stopped steps _ rfl, rfl, rfl, rfl⟩

/-- Claim C8: calling `startLogin` while a poll loop is active returns
immediately: the state is unchanged, no `login` request is issued and no
poll is scheduled. -/
theorem startLogin_single_loop (s : LoginState) (now : Nat)
    (resp : Except String DeviceAuthResponse) (h : s.pollingRef = true) :
    startLogin now resp s = (s, false, none) := by
  simp [startLogin, h]

/-- A sample device-auth response used by the `startLogin` witness. -/
def sampleDeviceAuth : DeviceAuthResponse :=
  { deviceCode := "dev-1", userCode := "ABCD-EFGH",
    verificationUri := "link.tidal.com", expiresIn := 300, interval := 5 }

/-- Concrete instantiation of `startLogin_single_loop`. -/
theorem startLogin_single_loop_witness :
    startLogin 10000 (.ok sampleDeviceAuth) samplePollingState =
      (samplePollingState, false, none) :=
  startLogin_single_loop samplePollingState 10000 (.ok sampleDeviceAuth) rfl

/-- The structural-change test of the queue-subscription in AppLayout.tsx:
`state.tracks !== prev.tracks || state.currentIndex !== prev.currentIndex ||
state.repeatMode !== prev.repeatMode || state.shuffled !== prev.shuffled`. -/
def structuralChange (prev cur : QueueStoreState) : Bool :=
  decide (cur.tracks ≠ prev.tracks) || decide (cur.currentIndex ≠ prev.currentIndex) ||
    decide (cur.repeatMode ≠ prev.repeatMode) || decide (cur.shuffled ≠ prev.shuffled)

/-- One queue-store update observed by the debounced save subscription in
AppLayout.tsx. The accumulator carries (previous store state, pending
`save_queue_state` fire epoch, number of saves performed so far); the event
is (epoch of the update, new store state). A pending timeout whose fire time
has already passed fires (one save) before the update runs; a structural
change then clears any pending timeout and schedules a new one 1000 ms
later. -/
def saveQueueStep (acc : QueueStoreState × Option Nat × Nat)
    (ev : Nat × QueueStoreState) : QueueStoreState × Option Nat × Nat :=
  let fired : Nat := match acc.2.1 with
    | some f => if f ≤ ev.1 then 1 else 0
    | none => 0
  let remaining : Option Nat := match acc.2.1 with
    | some f => if f ≤ ev.1 then none else some f
    | none => none
  if structuralChange acc.1 ev.2 then
    (ev.2, some (ev.1 + 1000), acc.2.2 + fired)
  else
    (ev.2, remaining, acc.2.2 + fired)

/-- Runs a sequence of timed queue-store updates through the debounced save
subscription. -/
def saveQueueRun : List (Nat × QueueStoreState) →
    QueueStoreState × Option Nat × Nat → QueueStoreState × Option Nat × Nat
  | [], acc => acc
  | ev :: rest, acc => saveQueueRun rest (saveQueueStep acc ev)

/-- Total number of `save_queue_state` invocations produced by a sequence of
updates starting from `init` with no pending timeout: the saves fired during
the run plus the one still pending at the end (which fires once its window
elapses undisturbed). -/
def totalSaves (evs : List (Nat × QueueStoreState)) (init : QueueStoreState) : Nat :=
  let out := saveQueueRun evs (init, none, 0)
  out.2.2 + (match out.2.1 with | some _ => 1 | none => 0)

/-- `burstAfter t prev evs` holds when every update in `evs` is a structural
change relative to its predecessor and happens strictly later than the
previous update but strictly within 1000 ms of it. -/
def burstAfter : Nat → QueueStoreState → List (Nat × QueueStoreState) → Bool
  | _, _, [] => true
  | t, prev, (t2, s2) :: rest =>
      decide (t < t2) && decide (t2 < t + 1000) && structuralChange prev s2 &&
        burstAfter t2 s2 rest

/-- During a burst, the pending timeout is repeatedly cancelled and
re-armed, and no save ever fires: the run keeps the save counter unchanged
and ends with a pending timeout. -/
theorem saveQueueRun_burst (rest : List (Nat × QueueStoreState))
    (t : Nat) (s : QueueStoreState) (saves : Nat)
    (h : burstAfter t s rest = true) :
    (saveQueueRun rest (s, some (t + 1000), saves)).2.2 = saves ∧
    ∃ f, (saveQueueRun rest (s, some (t + 1000), saves)).2.1 = some f := by
  induction rest generalizing t s with
  | nil => exact ⟨rfl, t + 1000, rfl⟩
  | cons ev rest ih =>
      obtain ⟨t2, s2⟩ := ev
      simp only [burstAfter, Bool.and_eq_true, decide_eq_true_eq] at h
      obtain ⟨⟨⟨_, hlt⟩, hchange⟩, hburst⟩ := h
      have hstep : saveQueueStep (s, some (t + 1000), saves) (t2, s2) =
          (s2, some (t2 + 1000), saves) := by
        simp [saveQueueStep, hchange, Nat.not_le.mpr hlt]
      simpa [saveQueueRun, hstep] using ih t2 s2 hburst

/-- Claim C6: a structural queue change at epoch `t` cancels any not yet
fired pending save and schedules `save_queue_state` for `t + 1000`
(restarting the 1-second coalescing window); consequently a burst of
structural changes whose consecutive gaps are all under 1000 ms produces
exactly one persistence write. -/
theorem saveQueue_debounce (prev cur init s0 : QueueStoreState)
    (f saves t t0 : Nat) (rest : List (Nat × QueueStoreState))
    (h1 : structuralChange prev cur = true) (h2 : t < f)
    (h3 : structuralChange init s0 = true)
    (h4 : burstAfter t0 s0 rest = true) :
    saveQueueStep (prev, some f, saves) (t, cur) = (cur, some (t + 1000), saves) ∧
    totalSaves ((t0, s0) :: rest) init = 1 := by
  constructor
  · simp [saveQueueStep, h1, Nat.not_le.mpr h2]
  · have hstep : saveQueueStep (init, none, 0) (t0, s0) = (s0, some (t0 + 1000), 0) := by
      simp [saveQueueStep, h3]
    obtain ⟨hsaves, f1, hf1⟩ := saveQueueRun_burst rest t0 s0 0 h4
    simp [totalSaves, saveQueueRun, hstep, hsaves, hf1]

/-- A queue store state holding one track, used by the debounce witness. -/
def sampleQueueState : QueueStoreState :=
  { tracks := [sampleTrack], currentIndex := some 0, repeatMode := .off,
    shuffled := false }

/-- A second queue store state (different repeat mode), used by the debounce
witness. -/
def sampleQueueState2 : QueueStoreState :=
  { tracks := [sampleTrack], currentIndex := some 0, repeatMode := .all,
    shuffled := false }

/-- Concrete instantiation of `saveQueue_debounce`: two structural changes
400 ms apart produce a single save. -/
theorem saveQueue_debounce_witness :
    saveQueueStep (QueueStoreState.initial, some 1500, 0) (600, sampleQueueState) =
      (sampleQueueState, some (600 + 1000), 0) ∧
    totalSaves [(100, sampleQueueState), (500, sampleQueueState2)]
      QueueStoreState.initial = 1 :=
  saveQueue_debounce QueueStoreState.initial sampleQueueState
    QueueStoreState.initial sampleQueueState 1500 0 600 100
    [(500, sampleQueueState2)] (by decide) (by decide) (by decide) (by decide)

/-- State of the useAnimatedProgress hook (src/hooks/useAnimatedProgress.ts):
the displayed position, the last backend sync (`lastSyncRef`) and the
dragging flag. Timestamps are in milliseconds, positions in seconds. -/
structure ProgressState where
  displayPosition : ℚ
  lastSyncPosition : ℚ
  lastSyncTimestamp : ℚ
  dragging : Bool
deriving DecidableEq, Repr

/-- Initial hook state (`useState(0)` and the initial `lastSyncRef`). -/
def initialProgressState : ProgressState :=
  { displayPosition := 0, lastSyncPosition := 0, lastSyncTimestamp := 0,
    dragging := false }

/-- The backend-sync effect: records the new position and timestamp in
`lastSyncRef` and, when not dragging, assigns the raw position to
`displayPosition` (no clamping). -/
def syncFromBackend (position now : ℚ) (s : ProgressState) : ProgressState :=
  { s with lastSyncPosition := position, lastSyncTimestamp := now,
           displayPosition := if s.dragging then s.displayPosition else position }

/-- One animation-frame tick while playing: skipped while dragging;
otherwise interpolates from the last sync and caps the result at
`duration`. -/
def tickStep (now duration : ℚ) (s : ProgressState) : ProgressState :=
  if s.dragging then s
  else
    { s with
        displayPosition :=
          min (s.lastSyncPosition + (now - s.lastSyncTimestamp) / 1000) duration }

/-- The displayed fraction: `duration > 0 ? displayPosition / duration : 0`. -/
def fraction (duration displayPosition : ℚ) : ℚ :=
  if 0 < duration then displayPosition / duration else 0

/-- Counterexample to claim C9 as stated: a backend sync carrying position
12 while the duration is 10 assigns `displayPosition = 12` unclamped, so the
display position exceeds the duration and the fraction is 6/5 > 1. -/
theorem progress_fraction_counterexample :
    (syncFromBackend 12 0 initialProgressState).displayPosition = 12 ∧
    ¬ (syncFromBackend 12 0 initialProgressState).displayPosition ≤ 10 ∧
    fraction 10 (syncFromBackend 12 0 initialProgressState).displayPosition = 6/5 ∧
    ¬ fraction 10 (syncFromBackend 12 0 initialProgressState).displayPosition ≤ 1 := by
  norm_num [syncFromBackend, fraction, initialProgressState]

/-- Claim C9 as amended: the fraction is 0 whenever the duration is not
positive; whenever the display position lies in [0, duration] the fraction
lies in [0,1]; and while playing a (non-dragging) animation tick caps the
interpolated display position at the duration. (A backend sync, by
contrast, assigns the raw position unclamped, so the bound on the fraction
requires synced positions not to exceed the duration.) -/
theorem progress_fraction_bounds (duration dp now : ℚ) (s : ProgressState)
    (h0 : 0 ≤ dp) (h1 : dp ≤ duration) (hd : s.dragging = false) :
    (¬ 0 < duration → fraction duration dp = 0) ∧
    0 ≤ fraction duration dp ∧ fraction duration dp ≤ 1 ∧
    (tickStep now duration s).displayPosition ≤ duration := by
  refine ⟨fun h => by simp [fraction, h], ?_, ?_, ?_⟩
  · unfold fraction
    split
    · exact div_nonneg h0 (le_of_lt (by assumption))
    · exact le_refl 0
  · unfold fraction
    split
    · exact (div_le_one (by assumption)).mpr h1
    · exact zero_le_one
  · simp only [tickStep, hd, Bool.false_eq_true, if_false]
    exact min_le_right _ _

/-- Concrete instantiation of `progress_fraction_bounds`. -/
theorem progress_fraction_bounds_witness :
    (¬ 0 < (10 : ℚ) → fraction 10 5 = 0) ∧
    0 ≤ fraction 10 5 ∧ fraction 10 5 ≤ 1 ∧
    (tickStep 3 10 initialProgressState).displayPosition ≤ 10 :=
  progress_fraction_bounds 10 5 3 initialProgressState (by norm_num)
    (by norm_num) rfl

/-- A list is a permutation of its `i`-th element consed onto the list with
index `i` erased. -/
theorem perm_cons_eraseIdx_of_getElem {α : Type} (l : List α) :
    ∀ (i : Nat) (a : α), l[i]? = some a → l.Perm (a :: l.eraseIdx i) := by
  induction l with
  | nil => intro i a h; simp at h
  | cons b t ih =>
      intro i a h
      cases i with
      | zero =>
          simp only [List.getElem?_cons_zero, Option.some.injEq] at h
          subst h
          simp only [List.eraseIdx_cons_zero]
          exact List.Perm.refl _
      | succ i =>
          simp only [List.getElem?_cons_succ] at h
          have hp := ih i a h
          simp only [List.eraseIdx_cons_succ]
          exact (hp.cons b).trans (List.Perm.swap a b _)

/-- Modelled from the spec: the `PlaybackQueue` state kept by the Rust
backend behind the `shuffle_queue`/`unshuffle_queue` commands (audio/queue
module, not under src/): the current (possibly shuffled) order, the current
index, repeat mode, shuffle flag, and the retained pre-shuffle order with
its index. -/
structure BackendQueueState where
  tracks : List Track
  currentIndex : Option Nat
  repeatMode : RepeatMode
  shuffled : Bool
  preShuffleOrder : Option (List Track × Option Nat)
deriving DecidableEq, Repr

/-- Modelled from the spec: the `shuffle_queue` backend command (Rust side,
not under src/). On enabling shuffle the current track is fixed at position
0 of the new order and the remaining tracks are randomly permuted after it
(`shuffledRest` stands for the RNG outcome); the pre-shuffle order and index
are retained so unshuffle can restore them. -/
def shuffleQueue (shuffledRest : List Track) (q : BackendQueueState) :
    BackendQueueState :=
  match q.currentIndex with
  | some i =>
      match q.tracks.get? i with
      | some cur =>
          { tracks := cur :: shuffledRest, currentIndex := some 0,
            repeatMode := q.repeatMode, shuffled := true,
            preShuffleOrder := some (q.tracks, q.currentIndex) }
      | none => q
  | none => q

/-- Modelled from the spec: the `unshuffle_queue` backend command (Rust
side, not under src/): disabling shuffle restores the retained pre-shuffle
order and index exactly (not a re-sort). -/
def unshuffleQueue (q : BackendQueueState) : BackendQueueState :=
  match q.preShuffleOrder with
  | some (order, idx) =>
      { tracks := order, currentIndex := idx, repeatMode := q.repeatMode,
        shuffled := false, preShuffleOrder := none }
  | none => { q with shuffled := false }

/-- Claim C4: enabling shuffle fixes the current track at position 0 with
the given permuted remainder after it (a permutation of the original queue
whenever the remainder permutes the other tracks), and disabling shuffle
afterwards restores the exact original order and current index. -/
theorem shuffle_unshuffle_roundtrip (q : BackendQueueState)
    (shuffledRest : List Track) (i : Nat) (cur : Track)
    (hi : q.currentIndex = some i) (hc : q.tracks[i]? = some cur) :
    (shuffleQueue shuffledRest q).tracks = cur :: shuffledRest ∧
    (shuffleQueue shuffledRest q).currentIndex = some 0 ∧
    (shuffleQueue shuffledRest q).shuffled = true ∧
    (shuffledRest.Perm (q.tracks.eraseIdx i) →
      (shuffleQueue shuffledRest q).tracks.Perm q.tracks) ∧
    (unshuffleQueue (shuffleQueue shuffledRest q)).tracks = q.tracks ∧
    (unshuffleQueue (shuffleQueue shuffledRest q)).currentIndex = q.currentIndex ∧
    (unshuffleQueue (shuffleQueue shuffledRest q)).shuffled = false := by
  have hq : shuffleQueue shuffledRest q =
      { tracks := cur :: shuffledRest, currentIndex := some 0,
        repeatMode := q.repeatMode, shuffled := true,
        preShuffleOrder := some (q.tracks, q.currentIndex) } := by
    simp [shuffleQueue, hi, hc]
  refine ⟨by simp [hq], by simp [hq], by simp [hq], ?_, by simp [hq, unshuffleQueue],
    by simp [hq, unshuffleQueue, hi], by simp [hq, unshuffleQueue]⟩
  intro hperm
  rw [hq]
  exact ((hperm.cons cur).trans
    (perm_cons_eraseIdx_of_getElem q.tracks i cur hc).symm)

/-- A backend queue of three tracks with the middle one current. -/
def sampleBackendQueue : BackendQueueState :=
  { tracks := [sampleTrack, sampleTrack2, sampleTrack3],
    currentIndex := some 1, repeatMode := .off, shuffled := false,
    preShuffleOrder := none }

/-- Concrete instantiation of `shuffle_unshuffle_roundtrip` with remainder
[t3, t1] after current track t2. -/
theorem shuffle_unshuffle_roundtrip_witness :
    (shuffleQueue [sampleTrack3, sampleTrack] sampleBackendQueue).tracks =
      sampleTrack2 :: [sampleTrack3, sampleTrack] ∧
    (shuffleQueue [sampleTrack3, sampleTrack] sampleBackendQueue).currentIndex = some 0 ∧
    (shuffleQueue [sampleTrack3, sampleTrack] sampleBackendQueue).shuffled = true ∧
    ([sampleTrack3, sampleTrack].Perm
        (sampleBackendQueue.tracks.eraseIdx 1) →
      (shuffleQueue [sampleTrack3, sampleTrack] sampleBackendQueue).tracks.Perm
        sampleBackendQueue.tracks) ∧
    (unshuffleQueue (shuffleQueue [sampleTrack3, sampleTrack] sampleBackendQueue)).tracks =
      sampleBackendQueue.tracks ∧
    (unshuffleQueue (shuffleQueue [sampleTrack3, sampleTrack] sampleBackendQueue)).currentIndex =
      sampleBackendQueue.currentIndex ∧
    (unshuffleQueue (shuffleQueue [sampleTrack3, sampleTrack] sampleBackendQueue)).shuffled =
      false :=
  shuffle_unshuffle_roundtrip sampleBackendQueue [sampleTrack3, sampleTrack]
    1 sampleTrack2 rfl rfl
